import Mathlib

/-!
# Agreement-manager server: shallow embedding and verification

This file embeds the request handlers of the Agreement-manager backend
(the several server revisions in the repository) as pure Lean functions
over explicit stores, and proves or refutes the specification claims
about them.

Conventions of the embedding:
* the SQL tables become Lean lists of records; the `UNIQUE` column
  constraints become membership checks on insert;
* JavaScript numbers coming from the client through
  `parseFloat(x) || 0` are modelled as `Option ℚ` (`none` = absent or
  non-numeric, i.e. `parseFloat` returned `NaN`), collapsed to `ℚ` by
  `num`; arithmetic on stored monetary values is exact rational
  arithmetic;
* JavaScript strings are Lean `String`s; the only falsy string is `""`;
* external crypto libraries (`bcrypt.compare`, `argon2.verify`,
  `jwt.verify`) are parameters of the handlers that call them, since
  their behaviour is outside the repository; `simpleHash` (base64) is
  implemented, since the repository defines it;
* activity-log inserts, timestamps and console logging are elided where
  no claim depends on them; non-monetary attribute columns (dates,
  contacts, emails) are elided from agreement rows for the same reason.
-/

namespace AgreementManager

/-! ## simpleHash: the base64 password encoding of the first revision -/

/-- The base64 alphabet, in index order. -/
def b64Alphabet : List Char :=
  "ABCDEFGHIJKLMNOPQRSTUVWXYZabcdefghijklmnopqrstuvwxyz0123456789+/".data

/-- The base64 digit for a 6-bit value. -/
def sextetChar (n : Nat) : Char := b64Alphabet.getD n 'A'

/-- Standard base64 encoding of a byte sequence, with `=` padding. -/
def b64Encode : List Nat → List Char
  | [] => []
  | [b1] =>
      [sextetChar (b1 / 4), sextetChar (b1 % 4 * 16), '=', '=']
  | [b1, b2] =>
      [sextetChar (b1 / 4), sextetChar (b1 % 4 * 16 + b2 / 16),
       sextetChar (b2 % 16 * 4), '=']
  | b1 :: b2 :: b3 :: rest =>
      sextetChar (b1 / 4) :: sextetChar (b1 % 4 * 16 + b2 / 16) ::
      sextetChar (b2 % 16 * 4 + b3 / 64) :: sextetChar (b3 % 64) ::
      b64Encode rest

/-- `simpleHash` from the first revision:
it base64-encodes the submitted password bytes.
Characters are taken as their code points (the passwords appearing in
the system are ASCII, where this agrees with UTF-8 bytes). -/
def simpleHash (s : String) : String := ⟨b64Encode (s.data.map Char.toNat)⟩

/-! ## Client-supplied numbers: `parseFloat(x) || 0` -/

/-- Collapse a client-supplied numeric field: `parseFloat(x) || 0`.
`none` stands for an absent or non-numeric field (`parseFloat` gave
`NaN`). -/
def num (v : Option ℚ) : ℚ := v.getD 0

/-! ## Financial derivation (inlined in the create/update handlers) -/

/-- The three profit figures computed by the create and update handlers:
`grossProfit = totalPayment - actualCost`,
`netProfit = grossProfit - agentCommission - otherExpenses`,
`profitMargin = totalPayment > 0 ? (netProfit / totalPayment) * 100 : 0`. -/
structure Derived where
  grossProfit : ℚ
  netProfit : ℚ
  profitMargin : ℚ
deriving DecidableEq, Repr

/-- Financial derivation exactly as inlined in the handlers. -/
def derive (totalPayment actualCost agentCommission otherExpenses : ℚ) :
    Derived :=
  let grossProfit := totalPayment - actualCost
  let netProfit := grossProfit - agentCommission - otherExpenses
  { grossProfit := grossProfit
    netProfit := netProfit
    profitMargin := if totalPayment > 0 then netProfit / totalPayment * 100 else 0 }

/-! ## Shared data model -/

/-- A stored user row (`users` table: serial id, unique username, stored
credential, role). The `status`/`created_at` columns are elided; no claim
touches them. -/
structure User where
  id : Nat
  username : String
  password : String
  role : String
deriving DecidableEq, Repr

/-- A stored agreement row. Non-monetary attribute columns (dates,
contacts, emails, agent name) are elided; no claim touches them. -/
structure Agreement where
  id : Nat
  ownerName : String
  location : String
  tokenNumber : String
  totalPayment : ℚ
  paymentOwner : ℚ
  paymentTenant : ℚ
  paymentDue : ℚ
  agreementStatus : String
  actualCost : ℚ
  agentCommission : ℚ
  otherExpenses : ℚ
  grossProfit : ℚ
  netProfit : ℚ
  profitMargin : ℚ
deriving DecidableEq, Repr

/-- The client-submitted JSON body of an agreement create/update request.
Monetary fields are `Option ℚ` (`none` = absent or non-numeric). -/
structure AgreementInput where
  ownerName : String
  location : String
  tokenNumber : String
  totalPayment : Option ℚ
  paymentOwner : Option ℚ
  paymentTenant : Option ℚ
  paymentDue : Option ℚ
  actualCost : Option ℚ
  agentCommission : Option ℚ
  otherExpenses : Option ℚ
  agreementStatus : String
deriving DecidableEq, Repr

/-- The agreement row built by the derivation-aware create/update
handlers (part_001 both revisions, and the second revision of part_000):
inputs pass through `parseFloat(x) || 0`, the three profit figures are
recomputed server-side, and `payment_due` is stored as submitted. -/
def mkRow (id : Nat) (data : AgreementInput) : Agreement :=
  let totalPayment := num data.totalPayment
  let actualCost := num data.actualCost
  let agentCommission := num data.agentCommission
  let otherExpenses := num data.otherExpenses
  let d := derive totalPayment actualCost agentCommission otherExpenses
  { id := id
    ownerName := data.ownerName
    location := data.location
    tokenNumber := data.tokenNumber
    totalPayment := totalPayment
    paymentOwner := num data.paymentOwner
    paymentTenant := num data.paymentTenant
    paymentDue := num data.paymentDue
    agreementStatus := data.agreementStatus
    actualCost := actualCost
    agentCommission := agentCommission
    otherExpenses := otherExpenses
    grossProfit := d.grossProfit
    netProfit := d.netProfit
    profitMargin := d.profitMargin }

/-! ## RevA: the first document of part_000
(base64 `simpleHash` scheme, default-password migration on login,
no-transaction backup restore, open debug endpoints). -/

namespace RevA

/-- The hard-coded migration table in the login handler. -/
def defaultPasswords (username : String) : Option String :=
  if username = "admin" then some "admin123"
  else if username = "user" then some "user123"
  else if username = "agent" then some "agent123"
  else if username = "manager" then some "manager123"
  else none

inductive LoginResp
  | fail (status : Nat) (error : String)
  | ok (message : String) (username : String) (role : String)
deriving DecidableEq, Repr

/-- `UPDATE users SET password = $1 WHERE username = $2`. -/
def setPassword (users : List User) (username newPassword : String) :
    List User :=
  users.map fun u =>
    if u.username = username then { u with password := newPassword } else u

/-- `POST /api/auth/login` of the first revision. Activity-log inserts
elided; the constant demo token in the success body elided. -/
def login (users : List User) (username password : String) :
    LoginResp × List User :=
  if username = "" ∨ password = "" then
    (.fail 400 "Username and password are required", users)
  else
    match users.find? (fun u => u.username == username) with
    | none => (.fail 401 "Invalid username or password", users)
    | some user =>
      if simpleHash password == user.password then
        (.ok "Login successful" user.username user.role, users)
      else if defaultPasswords username == some password then
        (.ok "Login successful (password migrated)" user.username user.role,
         setPassword users username (simpleHash password))
      else (.fail 401 "Invalid username or password", users)

inductive AgreementResp
  | err (status : Nat) (error : String)
  | ok (row : Agreement)
deriving DecidableEq, Repr

/-- `POST /api/agreements` of the first revision: validates the three
required fields, inserts without computing any derived field (the DDL
defaults them to 0), and maps a unique-constraint violation
(error code 23505) to 409. -/
def createAgreement (store : List Agreement) (newId : Nat)
    (data : AgreementInput) : AgreementResp × List Agreement :=
  if data.ownerName = "" ∨ data.location = "" ∨ data.tokenNumber = "" then
    (.err 400 "Owner name, location, and token number are required", store)
  else if store.any (fun r => r.tokenNumber == data.tokenNumber) then
    (.err 409 "Token number already exists", store)
  else
    let row : Agreement :=
      { id := newId
        ownerName := data.ownerName
        location := data.location
        tokenNumber := data.tokenNumber
        totalPayment := num data.totalPayment
        paymentOwner := num data.paymentOwner
        paymentTenant := num data.paymentTenant
        paymentDue := num data.paymentDue
        agreementStatus :=
          if data.agreementStatus = "" then "Drafted" else data.agreementStatus
        actualCost := 0
        agentCommission := 0
        otherExpenses := 0
        grossProfit := 0
        netProfit := 0
        profitMargin := 0 }
    (.ok row, store ++ [row])

/-- `PUT /api/agreements/:id` of the first revision: the UPDATE sets only
the nineteen submitted columns (through payment_due, agreement_status and
biometric_date) — it never writes actual_cost, agent_commission,
other_expenses, gross_profit, net_profit or profit_margin, which keep
their pre-update values; payment_due is stored as submitted. A matched
row is answered with the updated row, an unmatched id with 404, and a
token collision with another row trips the unique constraint into the
generic catch (500). The handler passes the raw client values (no
fallback to 0); the embedding collapses them with `num` and so covers
requests whose monetary fields are present and numeric. Activity-log
insert and updated_at elided. -/
def updateAgreement (store : List Agreement) (id : Nat)
    (data : AgreementInput) : AgreementResp × List Agreement :=
  match store.find? (fun r => r.id == id) with
  | none => (.err 404 "Agreement not found", store)
  | some old =>
    if store.any (fun r => r.tokenNumber == data.tokenNumber && r.id != id) then
      (.err 500 "Internal server error", store)
    else
      let row : Agreement :=
        { old with
          ownerName := data.ownerName
          location := data.location
          tokenNumber := data.tokenNumber
          totalPayment := num data.totalPayment
          paymentOwner := num data.paymentOwner
          paymentTenant := num data.paymentTenant
          paymentDue := num data.paymentDue
          agreementStatus := data.agreementStatus }
      (.ok row, store.map (fun r => if r.id = id then row else r))

inductive DeleteResp
  | err (status : Nat) (error : String)
  | ok (deletedUsername : String)
deriving DecidableEq, Repr

/-- `DELETE /api/users/:id` of the first revision (the URL id is modelled
already parsed to `Nat`; the success message interpolating the username
is modelled by carrying the username). -/
def deleteUser (users : List User) (id : Nat) : DeleteResp × List User :=
  if id = 1 then
    (.err 403 "Cannot delete the primary admin account.", users)
  else
    match users.find? (fun u => u.id == id) with
    | none => (.err 404 "User not found", users)
    | some u => (.ok u.username, users.filter (fun x => x.id != id))

/-- `GET /api/debug/users`: `SELECT id, username, role, password FROM
users ORDER BY id` with no authentication middleware; the store list is
kept in id order. -/
def debugUsers (users : List User) : List (Nat × String × String × String) :=
  users.map fun u => (u.id, u.username, u.role, u.password)

inductive RestoreResp
  | ok (restored : Nat)
  | err (status : Nat) (error : String)
deriving DecidableEq, Repr

/-- The restore insert loop under the `token_number UNIQUE` constraint:
rows are inserted one by one; the first conflicting insert throws,
leaving the rows inserted so far in place. -/
def insertUntilConflict (acc : List Agreement) :
    List Agreement → Bool × List Agreement
  | [] => (true, acc)
  | r :: rest =>
    if acc.any (fun s => s.tokenNumber == r.tokenNumber) then (false, acc)
    else insertUntilConflict (acc ++ [r]) rest

/-- `POST /api/backup/restore` of the first revision: `DELETE FROM
agreements` followed by per-row inserts, with **no** transaction — a
failed insert leaves the deletes and the earlier inserts applied. -/
def restore (store : List Agreement) (snapshot : List Agreement) :
    RestoreResp × List Agreement :=
  match insertUntilConflict [] snapshot with
  | (true, st) => (.ok snapshot.length, st)
  | (false, st) => (.err 500 "Internal server error", st)

end RevA

/-! ## RevB: the second document of part_000
(plain-text password login, transactional backup restore, derived
financial fields computed on create/update). -/

namespace RevB

/-- A user entry inside an uploaded backup; the credential may be absent
or the redaction marker. -/
structure BUser where
  username : String
  password : Option String
  role : String
deriving DecidableEq, Repr

/-- A stored user row as re-created by restore (serial id elided). -/
structure StoredUser where
  username : String
  password : String
  role : String
deriving DecidableEq, Repr

/-- The tables touched by the transactional restore. The settings
singleton is elided; no claim depends on it. -/
structure DB where
  agreements : List Agreement
  users : List StoredUser
  activityLogs : List String
deriving DecidableEq, Repr

/-- An uploaded backup body; `none` models an absent (falsy) section,
whose restore loop is skipped. -/
structure Snapshot where
  agreements : Option (List Agreement)
  users : Option (List BUser)
deriving DecidableEq, Repr

/-- `(u.password && u.password !== ***HIDDEN***) ? u.password :
the fixed string password` — the credential actually inserted for a
backup user entry. -/
def restoredPassword (u : BUser) : String :=
  match u.password with
  | some s => if s ≠ "" ∧ s ≠ "***HIDDEN***" then s else "password"
  | none => "password"

/-- The stored row a backup user entry is re-inserted as. -/
def toStoredUser (u : BUser) : StoredUser :=
  ⟨u.username, restoredPassword u, u.role⟩

/-- Sequential agreement inserts under the `token_number UNIQUE`
constraint inside the transaction: any conflict aborts the whole body. -/
def insertAgreementsTx (acc : List Agreement) :
    List Agreement → Option (List Agreement)
  | [] => some acc
  | r :: rest =>
    if acc.any (fun s => s.tokenNumber == r.tokenNumber) then none
    else insertAgreementsTx (acc ++ [r]) rest

/-- Sequential user inserts under the `username UNIQUE` constraint inside
the transaction. -/
def insertUsersTx (acc : List StoredUser) :
    List BUser → Option (List StoredUser)
  | [] => some acc
  | u :: rest =>
    if acc.any (fun s => s.username == u.username) then none
    else insertUsersTx (acc ++ [toStoredUser u]) rest

/-- The agreements table produced by the transaction body (it was cleared
first, so an absent section leaves it empty). -/
def restoredAgreements (snap : Snapshot) : Option (List Agreement) :=
  match snap.agreements with
  | none => some []
  | some l => insertAgreementsTx [] l

/-- The users table produced by the transaction body. -/
def restoredUsers (snap : Snapshot) : Option (List StoredUser) :=
  match snap.users with
  | none => some []
  | some l => insertUsersTx [] l

/-- The `BEGIN ... COMMIT` body of `POST /api/backup/restore` of the
second revision: clear activity logs, agreements and users, then
re-insert from the snapshot; `none` = some statement threw. -/
def restoreBody (snap : Snapshot) : Option DB :=
  match restoredAgreements snap, restoredUsers snap with
  | some ags, some us => some { agreements := ags, users := us, activityLogs := [] }
  | _, _ => none

/-- `POST /api/backup/restore` of the second revision: the body runs in a
transaction; on any error it is rolled back and the pre-restore state is
kept. Returns whether the restore committed. -/
def restore (db : DB) (snap : Snapshot) : Bool × DB :=
  match restoreBody snap with
  | some db2 => (true, db2)
  | none => (false, db)

/-- `POST /api/agreements` of the second revision: computes the derived
financial fields like part_001 and inserts; a unique-constraint violation
lands in the generic catch (500). -/
def createAgreement (store : List Agreement) (newId : Nat)
    (data : AgreementInput) : RevA.AgreementResp × List Agreement :=
  if store.any (fun r => r.tokenNumber == data.tokenNumber) then
    (.err 500 "Failed to save agreement", store)
  else
    let row := mkRow newId data
    (.ok row, store ++ [row])

end RevB

/-! ## Jwt: the first document of part_001
(bcrypt credentials, JWT middleware, paginated reads). -/

namespace Jwt

/-- The JWT payload attached as `req.user` by the middleware. -/
structure Session where
  id : Nat
  username : String
  role : String
deriving DecidableEq, Repr

/-- JavaScript split on a single-character separator, over the character
list of a string: every separator occurrence starts a new (possibly
empty) part. -/
def splitChar (sep : Char) : List Char → List (List Char)
  | [] => [[]]
  | c :: rest =>
    if c = sep then [] :: splitChar sep rest
    else
      match splitChar sep rest with
      | [] => [[c]]
      | w :: ws => (c :: w) :: ws

/-- The token extraction of the middleware: take the second
space-separated part of the authorization header, with a missing header,
a missing part and the empty string all falsy. -/
def extractToken (authHeader : Option String) : Option String :=
  match authHeader with
  | none => none
  | some h =>
    match (splitChar ' ' h.data).get? 1 with
    | none => none
    | some t => if t = [] then none else some (String.mk t)

inductive AuthResult
  | reject (status : Nat) (error : String)
  | accept (user : Session)
deriving DecidableEq, Repr

/-- The `authenticateToken` middleware. `jwtVerify` abstracts
`jwt.verify(token, JWT_SECRET, cb)`: `none` means the callback got an
error (malformed, bad signature, or expired). -/
def authenticateToken (jwtVerify : String → Option Session)
    (authHeader : Option String) : AuthResult :=
  match extractToken authHeader with
  | none => .reject 401 "Access token required"
  | some t =>
    match jwtVerify t with
    | none => .reject 403 "Invalid or expired token"
    | some u => .accept u

/-- The `checkAdmin` middleware: `none` = pass through to the handler. -/
def checkAdmin (user : Session) : Option (Nat × String) :=
  if user.role = "admin" then none
  else some (403, "Forbidden: Admin access required")

inductive LoginResp
  | fail (status : Nat) (error : String)
  | ok (id : Nat) (username : String) (role : String)
deriving DecidableEq, Repr

/-- `POST /api/auth/login` of the bcrypt revision. `bcryptCompare`
abstracts `bcrypt.compare(candidate, storedHash)`. Activity-log insert
and the issued token elided. -/
def login (bcryptCompare : String → String → Bool) (users : List User)
    (username password : String) : LoginResp :=
  if username = "" ∨ password = "" then
    .fail 400 "Username and password required"
  else
    match users.find? (fun u => u.username == username) with
    | none => .fail 401 "Invalid credentials"
    | some u =>
      if bcryptCompare password u.password then .ok u.id u.username u.role
      else .fail 401 "Invalid credentials"

inductive AgreementResp
  | err (status : Nat) (error : String)
  | ok (row : Agreement)
  | okEmpty
deriving DecidableEq, Repr

/-- `POST /api/agreements` of the bcrypt revision: a read-then-insert
uniqueness check answering 400 on a duplicate token, then the financial
derivation and the insert. Activity-log insert elided. -/
def createAgreement (store : List Agreement) (newId : Nat)
    (data : AgreementInput) : AgreementResp × List Agreement :=
  if store.any (fun r => r.tokenNumber == data.tokenNumber) then
    (.err 400 "Token number already exists", store)
  else
    let row := mkRow newId data
    (.ok row, store ++ [row])

/-- `PUT /api/agreements/:id` of the bcrypt revision: token uniqueness is
re-checked excluding the record itself, the profit figures are recomputed
and `payment_due` is stored as submitted; the handler answers with
`result.rows[0]`, which is `undefined` (`okEmpty`) when no row matched. -/
def updateAgreement (store : List Agreement) (id : Nat)
    (data : AgreementInput) : AgreementResp × List Agreement :=
  if store.any (fun r => r.tokenNumber == data.tokenNumber && r.id != id) then
    (.err 400 "Another agreement with this token number already exists.", store)
  else
    let store2 := store.map fun r => if r.id = id then mkRow id data else r
    match store.find? (fun r => r.id == id) with
    | some _ => (.ok (mkRow id data), store2)
    | none => (.okEmpty, store2)

inductive DeleteResp
  | err (status : Nat) (error : String)
  | noContent
deriving DecidableEq, Repr

/-- `DELETE /api/users/:id` of the bcrypt revision (after
`authenticateToken` and `checkAdmin`): a caller deleting its own id is
answered 400; otherwise the row is deleted and 204 returned whether or
not it existed. -/
def deleteUser (users : List User) (callerId id : Nat) :
    DeleteResp × List User :=
  if id = callerId then
    (.err 400 "Admin cannot delete their own account.", users)
  else (.noContent, users.filter (fun u => u.id != id))

end Jwt

/-! ## Argon: part_002 (argon2 credentials, JWT). -/

namespace Argon

/-- A stored user row of part_002 (`full_name` and `status` nullable). -/
structure AUser where
  id : Nat
  username : String
  password : String
  fullName : Option String
  role : String
  status : Option String
deriving DecidableEq, Repr

/-- JavaScript `a || b` on a nullable string field. -/
def jsOr (a : Option String) (b : String) : String :=
  match a with
  | some s => if s = "" then b else s
  | none => b

inductive LoginResp
  | fail (status : Nat) (error : String)
  | ok (id : Nat) (username : String) (fullName : String) (role : String)
       (status : String)
deriving DecidableEq, Repr

/-- `POST /api/auth/login` of part_002. `argonVerify` abstracts
`argon2.verify(storedHash, candidate)`. The `last_login` update and the
issued token are elided. -/
def login (argonVerify : String → String → Bool) (users : List AUser)
    (username password : String) : LoginResp :=
  match users.find? (fun u => u.username == username) with
  | none => .fail 401 "Invalid credentials"
  | some u =>
    if argonVerify u.password password then
      .ok u.id u.username (jsOr u.fullName u.username) u.role
        (jsOr u.status "active")
    else .fail 401 "Invalid credentials"

end Argon

/-! ## Helper lemmas -/

/-- After the password update, looking the user up again finds the same
row with the new credential. -/
theorem find_setPassword (st : List User) (u pw : String) (usr : User)
    (h : st.find? (fun x => x.username == u) = some usr) :
    (RevA.setPassword st u pw).find? (fun x => x.username == u) =
      some { usr with password := pw } := by
  induction st with
  | nil => simp [List.find?] at h
  | cons a t ih =>
    by_cases hau : a.username = u
    · rw [List.find?_cons_of_pos _ (by simp [hau])] at h
      have ha : a = usr := by injection h
      subst ha
      simp [RevA.setPassword, List.find?_cons_of_pos, hau]
    · rw [List.find?_cons_of_neg _ (by simp [hau])] at h
      have := ih h
      simpa [RevA.setPassword, List.find?_cons_of_neg, hau] using this

/-- A successful transactional agreement insert loop appends exactly the
snapshot rows to the accumulator. -/
theorem insertAgreementsTx_append :
    ∀ (l acc r : List Agreement),
      RevB.insertAgreementsTx acc l = some r → r = acc ++ l := by
  intro l
  induction l with
  | nil =>
    intro acc r h
    simp [RevB.insertAgreementsTx] at h
    simp [h]
  | cons a t ih =>
    intro acc r h
    unfold RevB.insertAgreementsTx at h
    split at h
    · exact absurd h (by simp)
    · have hr := ih (acc ++ [a]) r h
      rw [hr]
      simp

/-- A successful transactional user insert loop appends exactly the
re-created snapshot users to the accumulator. -/
theorem insertUsersTx_append :
    ∀ (l : List RevB.BUser) (acc r : List RevB.StoredUser),
      RevB.insertUsersTx acc l = some r →
        r = acc ++ l.map RevB.toStoredUser := by
  intro l
  induction l with
  | nil =>
    intro acc r h
    simp [RevB.insertUsersTx] at h
    simp [h]
  | cons a t ih =>
    intro acc r h
    unfold RevB.insertUsersTx at h
    split at h
    · exact absurd h (by simp)
    · have hr := ih (acc ++ [RevB.toStoredUser a]) r h
      rw [hr]
      simp

/-- The debug endpoint output projects back to the stored credential
column. -/
theorem debugUsers_map_password (users : List User) :
    (RevA.debugUsers users).map (fun t => t.2.2.2) =
      users.map (fun u => u.password) := by
  simp [RevA.debugUsers]

/-! ## Concrete data used by counterexamples and witnesses -/

/-- A baseline agreement row with zero monetary fields. -/
def rowX : Agreement :=
  { id := 1
    ownerName := "X"
    location := "LX"
    tokenNumber := "TX"
    totalPayment := 0
    paymentOwner := 0
    paymentTenant := 0
    paymentDue := 0
    agreementStatus := "Drafted"
    actualCost := 0
    agentCommission := 0
    otherExpenses := 0
    grossProfit := 0
    netProfit := 0
    profitMargin := 0 }

/-- A snapshot row with token TA. -/
def rowA : Agreement := { rowX with id := 2, ownerName := "A", tokenNumber := "TA" }

/-- A second snapshot row with the same token TA (conflicting insert). -/
def rowA2 : Agreement := { rowX with id := 3, ownerName := "B", tokenNumber := "TA" }

/-- The concrete create scenario of the specification. -/
def c3Scenario : AgreementInput :=
  { ownerName := "A"
    location := "L1"
    tokenNumber := "T-100"
    totalPayment := some 1000
    paymentOwner := none
    paymentTenant := none
    paymentDue := none
    actualCost := some 400
    agentCommission := some 50
    otherExpenses := some 10
    agreementStatus := "Drafted" }

/-- An update body carrying a client-chosen payment_due of 999 against
payments that would derive 1000. -/
def c4Data : AgreementInput :=
  { ownerName := "O"
    location := "L"
    tokenNumber := "T4"
    totalPayment := some 1000
    paymentOwner := some 0
    paymentTenant := some 0
    paymentDue := some 999
    actualCost := none
    agentCommission := none
    otherExpenses := none
    agreementStatus := "Signed" }

/-- A stored row with pre-existing profit figures (and token T4) used to
exercise the part_000 revision-A update. -/
def c4StaleRow : Agreement :=
  { rowX with
    id := 1
    tokenNumber := "T4"
    grossProfit := 111
    netProfit := 222
    profitMargin := 33 }

/-- The row the part_000 revision-A update produces from `c4StaleRow` and
`c4Data`: only the submitted input columns change. -/
def c4StaleUpdated : Agreement :=
  { c4StaleRow with
    ownerName := c4Data.ownerName
    location := c4Data.location
    tokenNumber := c4Data.tokenNumber
    totalPayment := num c4Data.totalPayment
    paymentOwner := num c4Data.paymentOwner
    paymentTenant := num c4Data.paymentTenant
    paymentDue := num c4Data.paymentDue
    agreementStatus := c4Data.agreementStatus }

/-- A create body carrying a client-chosen payment_due of 7 against
payments that would derive 700. -/
def c5Data : AgreementInput :=
  { ownerName := "P"
    location := "L5"
    tokenNumber := "T5"
    totalPayment := some 1000
    paymentOwner := some 100
    paymentTenant := some 200
    paymentDue := some 7
    actualCost := none
    agentCommission := none
    otherExpenses := none
    agreementStatus := "Drafted" }

/-- A create body used to exercise the duplicate-token paths. -/
def c7Data : AgreementInput :=
  { ownerName := "Q"
    location := "L7"
    tokenNumber := "T7"
    totalPayment := none
    paymentOwner := none
    paymentTenant := none
    paymentDue := none
    actualCost := none
    agentCommission := none
    otherExpenses := none
    agreementStatus := "Drafted" }

/-! ## C1: legacy credential migration on login -/

/-- C1, counterexample: the claim quantifies over any user whose stored
credential is the legacy plain-text form of the submitted password, but
the legacy branch of the login handler consults only the hard-coded
default-password table. The user bob stores the legacy plain-text
credential pw equal to the submitted password, which the current base64
scheme does not match, yet login is rejected and nothing is migrated. -/
theorem c1_cx_nondefault_user_not_migrated :
    simpleHash "pw" ≠ "pw" ∧
    RevA.login [{ id := 1, username := "bob", password := "pw", role := "user" }]
        "bob" "pw" =
      (RevA.LoginResp.fail 401 "Invalid username or password",
       [{ id := 1, username := "bob", password := "pw", role := "user" }]) := by
  decide

/-- C1 (amended): the legacy branch is keyed on the hard-coded default
password table, not on the stored form. For a user found under a
username whose table entry equals the submitted password, when the
stored credential does not verify under the current base64 scheme, login
succeeds through the migration branch and the stored credential is
upgraded in place to simpleHash of the password before the response;
the transition is idempotent: repeating the same login verifies through
the current-scheme branch and leaves the store unchanged. -/
theorem c1_default_password_migration (st : List User) (u p : String)
    (usr : User) (hu : u ≠ "") (hp : p ≠ "")
    (hfind : st.find? (fun x => x.username == u) = some usr)
    (hcur : simpleHash p ≠ usr.password)
    (hdef : RevA.defaultPasswords u = some p) :
    RevA.login st u p =
      (RevA.LoginResp.ok "Login successful (password migrated)"
         usr.username usr.role,
       RevA.setPassword st u (simpleHash p)) ∧
    RevA.login (RevA.setPassword st u (simpleHash p)) u p =
      (RevA.LoginResp.ok "Login successful" usr.username usr.role,
       RevA.setPassword st u (simpleHash p)) := by
  constructor
  · simp [RevA.login, hu, hp, hfind, hcur, hdef]
  · have hf := find_setPassword st u (simpleHash p) usr hfind
    simp [RevA.login, hu, hp, hf]

/-- C1, witness: the seeded admin with the plain-text legacy credential
admin123 migrates on first login and hits the current-scheme branch on
the second. -/
theorem c1_default_password_migration_witness :
    RevA.login [{ id := 1, username := "admin", password := "admin123", role := "admin" }]
        "admin" "admin123" =
      (RevA.LoginResp.ok "Login successful (password migrated)" "admin" "admin",
       RevA.setPassword
         [{ id := 1, username := "admin", password := "admin123", role := "admin" }]
         "admin" (simpleHash "admin123")) ∧
    RevA.login
        (RevA.setPassword
          [{ id := 1, username := "admin", password := "admin123", role := "admin" }]
          "admin" (simpleHash "admin123"))
        "admin" "admin123" =
      (RevA.LoginResp.ok "Login successful" "admin" "admin",
       RevA.setPassword
         [{ id := 1, username := "admin", password := "admin123", role := "admin" }]
         "admin" (simpleHash "admin123")) :=
  c1_default_password_migration
    [{ id := 1, username := "admin", password := "admin123", role := "admin" }]
    "admin" "admin123"
    { id := 1, username := "admin", password := "admin123", role := "admin" }
    (by decide) (by decide) (by decide) (by decide) (by decide)

/-! ## C2: all-or-nothing restore -/

/-- C2, counterexample: the restore of the first revision is not
transactional. Restoring a snapshot whose second row repeats token TA
over a store holding rowX fails with 500 after the delete and the first
insert have been applied: the resulting store is neither the pre-restore
state nor the snapshot set. -/
theorem c2_cx_partial_restore :
    RevA.restore [rowX] [rowA, rowA2] =
      (RevA.RestoreResp.err 500 "Internal server error", [rowA]) ∧
    ([rowA] : List Agreement) ≠ [rowX] ∧
    ([rowA] : List Agreement) ≠ [rowA, rowA2] := by
  decide

/-- C2 (amended): the restore of the second revision, which wraps the
clear-then-insert in a transaction, is all-or-nothing: if it commits the
agreements table holds exactly the agreement rows of the snapshot, and
if it rolls back the whole store is unchanged from its pre-restore
state. -/
theorem c2_transactional_restore (db : RevB.DB) (snap : RevB.Snapshot) :
    ((RevB.restore db snap).1 = true →
       (RevB.restore db snap).2.agreements = snap.agreements.getD []) ∧
    ((RevB.restore db snap).1 = false → (RevB.restore db snap).2 = db) := by
  cases hb : RevB.restoreBody snap with
  | none => simp [RevB.restore, hb]
  | some db2 =>
    have hres : RevB.restore db snap = (true, db2) := by
      simp [RevB.restore, hb]
    refine ⟨fun _ => ?_, fun hf => ?_⟩
    · rw [hres]
      unfold RevB.restoreBody at hb
      cases ha : RevB.restoredAgreements snap with
      | none => rw [ha] at hb; simp at hb
      | some ags =>
        cases hus : RevB.restoredUsers snap with
        | none => rw [ha, hus] at hb; simp at hb
        | some us =>
          rw [ha, hus] at hb
          have hdb2 : db2 = { agreements := ags, users := us, activityLogs := [] } := by
            injection hb with h
            exact h.symm
          unfold RevB.restoredAgreements at ha
          cases hsa : snap.agreements with
          | none =>
            rw [hsa] at ha
            have hags : ags = [] := by injection ha with h; exact h.symm
            simp [hdb2, hags, hsa]
          | some l =>
            rw [hsa] at ha
            have hags := insertAgreementsTx_append l [] ags ha
            simp [hdb2, hags, hsa]
    · rw [hres] at hf
      simp at hf

/-- C2, witness: a committing restore (instantiating the amended theorem
and discharging its commit hypothesis) leaves exactly the snapshot
agreement rows. -/
theorem c2_transactional_restore_witness :
    (RevB.restore
        { agreements := [rowX], users := [], activityLogs := ["old"] }
        { agreements := some [rowA], users := none }).2.agreements =
      (some [rowA] : Option (List Agreement)).getD [] :=
  (c2_transactional_restore
      { agreements := [rowX], users := [], activityLogs := ["old"] }
      { agreements := some [rowA], users := none }).1 (by decide)

/-! ## C3: financial derivation on create and update -/

/-- C3: every agreement row persisted by a successful create or update of
the derivation-aware revision satisfies the derivation formulas for
grossProfit, netProfit and profitMargin over the parseFloat-or-zero
images of the submitted inputs, and the concrete scenario with
totalPayment 1000, actualCost 400, agentCommission 50 and otherExpenses
10 persists grossProfit 600, netProfit 540 and profitMargin 54. -/
theorem c3_financial_derivation :
    (∀ (store : List Agreement) (newId : Nat) (data : AgreementInput)
       (row : Agreement) (store2 : List Agreement),
       Jwt.createAgreement store newId data = (Jwt.AgreementResp.ok row, store2) →
         row.grossProfit = num data.totalPayment - num data.actualCost ∧
         row.netProfit =
           row.grossProfit - num data.agentCommission - num data.otherExpenses ∧
         row.profitMargin =
           (if num data.totalPayment > 0 then
              row.netProfit / num data.totalPayment * 100 else 0)) ∧
    (∀ (store : List Agreement) (id : Nat) (data : AgreementInput)
       (row : Agreement) (store2 : List Agreement),
       Jwt.updateAgreement store id data = (Jwt.AgreementResp.ok row, store2) →
         row.grossProfit = num data.totalPayment - num data.actualCost ∧
         row.netProfit =
           row.grossProfit - num data.agentCommission - num data.otherExpenses ∧
         row.profitMargin =
           (if num data.totalPayment > 0 then
              row.netProfit / num data.totalPayment * 100 else 0)) ∧
    Jwt.createAgreement [] 1 c3Scenario =
      (Jwt.AgreementResp.ok (mkRow 1 c3Scenario), [mkRow 1 c3Scenario]) ∧
    (mkRow 1 c3Scenario).grossProfit = 600 ∧
    (mkRow 1 c3Scenario).netProfit = 540 ∧
    (mkRow 1 c3Scenario).profitMargin = 54 := by
  refine ⟨?_, ?_, rfl, ?_, ?_, ?_⟩
  · intro store newId data row store2 h
    unfold Jwt.createAgreement at h
    split at h
    · exact absurd h (by simp)
    · have hrow : row = mkRow newId data := by
        have := congrArg Prod.fst h
        simpa using this.symm
      subst hrow
      exact ⟨rfl, rfl, rfl⟩
  · intro store id data row store2 h
    unfold Jwt.updateAgreement at h
    split at h
    · exact absurd h (by simp)
    · split at h
      · have hrow : row = mkRow id data := by
          have := congrArg Prod.fst h
          simpa using this.symm
        subst hrow
        exact ⟨rfl, rfl, rfl⟩
      · exact absurd h (by simp)
  · norm_num [mkRow, derive, num, c3Scenario]
  · norm_num [mkRow, derive, num, c3Scenario]
  · norm_num [mkRow, derive, num, c3Scenario]

/-- C3, witness: the derivation equations instantiated at the concrete
scenario through a successful create. -/
theorem c3_financial_derivation_witness :
    (mkRow 9 c3Scenario).grossProfit =
      num c3Scenario.totalPayment - num c3Scenario.actualCost ∧
    (mkRow 9 c3Scenario).netProfit =
      (mkRow 9 c3Scenario).grossProfit - num c3Scenario.agentCommission -
        num c3Scenario.otherExpenses ∧
    (mkRow 9 c3Scenario).profitMargin =
      (if num c3Scenario.totalPayment > 0 then
         (mkRow 9 c3Scenario).netProfit / num c3Scenario.totalPayment * 100
       else 0) :=
  c3_financial_derivation.1 [] 9 c3Scenario (mkRow 9 c3Scenario)
    [mkRow 9 c3Scenario] rfl

/-! ## C4: update recomputes all derived fields -/

/-- C4, counterexample: the claim fails in both cited update handlers.
In the part_001 update a successful update stores the client-submitted
payment_due of 999 although the submitted payment inputs derive 1000; in
the part_000 revision-A update the profit columns are not written at all,
so the pre-update grossProfit 111 survives although recomputing it from
the post-update inputs (totalPayment 1000, actualCost 0) gives 1000 —
stale derived values persist after a successful update. -/
theorem c4_cx_update_keeps_client_payment_due :
    (Jwt.updateAgreement [mkRow 1 c4Data] 1 c4Data =
       (Jwt.AgreementResp.ok (mkRow 1 c4Data), [mkRow 1 c4Data]) ∧
     (mkRow 1 c4Data).paymentDue = 999 ∧
     num c4Data.totalPayment - num c4Data.paymentOwner - num c4Data.paymentTenant
       = 1000 ∧
     (999 : ℚ) ≠ 1000) ∧
    (RevA.updateAgreement [c4StaleRow] 1 c4Data =
       (RevA.AgreementResp.ok c4StaleUpdated, [c4StaleUpdated]) ∧
     c4StaleUpdated.grossProfit = 111 ∧
     c4StaleUpdated.totalPayment = 1000 ∧
     c4StaleUpdated.actualCost = 0 ∧
     (111 : ℚ) ≠ 1000 - 0) := by
  refine ⟨⟨rfl, rfl, by norm_num [num, c4Data], by norm_num⟩,
          ⟨rfl, rfl, rfl, rfl, by norm_num⟩⟩

/-- C4 (amended): in the part_001 update every successful update-by-id
overwrites the stored row with a row recomputed from the submitted
inputs — grossProfit, netProfit and profitMargin satisfy the derivation
formulas, so no stale profit figures survive there — but paymentDue is
persisted verbatim from the client body (parseFloat-or-zero). In the
part_000 revision-A update the derived columns are not written at all:
grossProfit, netProfit, profitMargin (and the cost inputs) keep their
pre-update values, so stale derived values do survive successful
updates, and paymentDue is likewise stored as submitted. -/
theorem c4_update_overwrites_derived :
    (∀ (store : List Agreement) (id : Nat) (data : AgreementInput)
       (row : Agreement) (store2 : List Agreement),
       Jwt.updateAgreement store id data = (Jwt.AgreementResp.ok row, store2) →
         row = mkRow id data ∧
         row.grossProfit = num data.totalPayment - num data.actualCost ∧
         row.netProfit =
           row.grossProfit - num data.agentCommission - num data.otherExpenses ∧
         row.profitMargin =
           (if num data.totalPayment > 0 then
              row.netProfit / num data.totalPayment * 100 else 0) ∧
         row.paymentDue = num data.paymentDue ∧
         store2 = store.map (fun r => if r.id = id then mkRow id data else r)) ∧
    (∀ (store : List Agreement) (id : Nat) (data : AgreementInput)
       (old row : Agreement) (store2 : List Agreement),
       store.find? (fun r => r.id == id) = some old →
       RevA.updateAgreement store id data = (RevA.AgreementResp.ok row, store2) →
         row.grossProfit = old.grossProfit ∧
         row.netProfit = old.netProfit ∧
         row.profitMargin = old.profitMargin ∧
         row.actualCost = old.actualCost ∧
         row.agentCommission = old.agentCommission ∧
         row.otherExpenses = old.otherExpenses ∧
         row.paymentDue = num data.paymentDue ∧
         row.totalPayment = num data.totalPayment ∧
         store2 = store.map (fun r => if r.id = id then row else r)) := by
  constructor
  · intro store id data row store2 h
    unfold Jwt.updateAgreement at h
    split at h
    · exact absurd h (by simp)
    · split at h
      · have hrow : row = mkRow id data := by
          have := congrArg Prod.fst h
          simpa using this.symm
        have hst : store2 = store.map (fun r => if r.id = id then mkRow id data else r) := by
          have := congrArg Prod.snd h
          simpa using this.symm
        subst hrow
        exact ⟨rfl, rfl, rfl, rfl, rfl, hst⟩
      · exact absurd h (by simp)
  · intro store id data old row store2 hfind h
    unfold RevA.updateAgreement at h
    split at h
    · exact absurd h (by simp)
    · rename_i old' hfind'
      rw [hfind] at hfind'
      injection hfind' with holdeq
      subst holdeq
      split at h
      · exact absurd h (by simp)
      · simp only [Prod.mk.injEq, RevA.AgreementResp.ok.injEq] at h
        obtain ⟨hrow, hstore⟩ := h
        subst hrow
        exact ⟨rfl, rfl, rfl, rfl, rfl, rfl, rfl, rfl, hstore.symm⟩

/-- C4, witness: the amended update equations instantiated at a concrete
successful update of each revision. -/
theorem c4_update_overwrites_derived_witness :
    (mkRow 2 c3Scenario = mkRow 2 c3Scenario ∧
     (mkRow 2 c3Scenario).grossProfit =
       num c3Scenario.totalPayment - num c3Scenario.actualCost ∧
     (mkRow 2 c3Scenario).netProfit =
       (mkRow 2 c3Scenario).grossProfit - num c3Scenario.agentCommission -
         num c3Scenario.otherExpenses ∧
     (mkRow 2 c3Scenario).profitMargin =
       (if num c3Scenario.totalPayment > 0 then
          (mkRow 2 c3Scenario).netProfit / num c3Scenario.totalPayment * 100
        else 0) ∧
     (mkRow 2 c3Scenario).paymentDue = num c3Scenario.paymentDue ∧
     [mkRow 2 c3Scenario] =
       [mkRow 2 c3Scenario].map
         (fun r => if r.id = 2 then mkRow 2 c3Scenario else r)) ∧
    (c4StaleUpdated.grossProfit = c4StaleRow.grossProfit ∧
     c4StaleUpdated.netProfit = c4StaleRow.netProfit ∧
     c4StaleUpdated.profitMargin = c4StaleRow.profitMargin ∧
     c4StaleUpdated.actualCost = c4StaleRow.actualCost ∧
     c4StaleUpdated.agentCommission = c4StaleRow.agentCommission ∧
     c4StaleUpdated.otherExpenses = c4StaleRow.otherExpenses ∧
     c4StaleUpdated.paymentDue = num c4Data.paymentDue ∧
     c4StaleUpdated.totalPayment = num c4Data.totalPayment ∧
     [c4StaleUpdated] =
       [c4StaleRow].map (fun r => if r.id = 1 then c4StaleUpdated else r)) :=
  ⟨c4_update_overwrites_derived.1 [mkRow 2 c3Scenario] 2 c3Scenario
     (mkRow 2 c3Scenario) [mkRow 2 c3Scenario] rfl,
   c4_update_overwrites_derived.2 [c4StaleRow] 1 c4Data c4StaleRow
     c4StaleUpdated [c4StaleUpdated] rfl rfl⟩

/-! ## C5: payment due server-side derivation -/

/-- C5, counterexample: a successful create persists the caller-supplied
payment_due of 7 although totalPayment − paymentOwner − paymentTenant is
700, contradicting the claim that the persisted value is always the
server-side derivation and never the caller value. -/
theorem c5_cx_payment_due_not_derived :
    Jwt.createAgreement [] 5 c5Data =
      (Jwt.AgreementResp.ok (mkRow 5 c5Data), [mkRow 5 c5Data]) ∧
    (mkRow 5 c5Data).paymentDue = 7 ∧
    num c5Data.totalPayment - num c5Data.paymentOwner - num c5Data.paymentTenant
      = 700 ∧
    (7 : ℚ) ≠ 700 := by
  refine ⟨rfl, rfl, by norm_num [num, c5Data], by norm_num⟩

/-- C5 (amended): in both derivation-aware create handlers the persisted
paymentDue is exactly the caller-supplied value after parseFloat-or-zero
(defaulting to 0 when absent or non-numeric); it is never recomputed from
the payment inputs. -/
theorem c5_payment_due_from_caller :
    (∀ (store : List Agreement) (newId : Nat) (data : AgreementInput)
       (row : Agreement) (store2 : List Agreement),
       Jwt.createAgreement store newId data = (Jwt.AgreementResp.ok row, store2) →
         row.paymentDue = num data.paymentDue) ∧
    (∀ (store : List Agreement) (newId : Nat) (data : AgreementInput)
       (row : Agreement) (store2 : List Agreement),
       RevB.createAgreement store newId data = (RevA.AgreementResp.ok row, store2) →
         row.paymentDue = num data.paymentDue) := by
  constructor
  · intro store newId data row store2 h
    unfold Jwt.createAgreement at h
    split at h
    · exact absurd h (by simp)
    · have hrow : row = mkRow newId data := by
        have := congrArg Prod.fst h
        simpa using this.symm
      subst hrow
      rfl
  · intro store newId data row store2 h
    unfold RevB.createAgreement at h
    split at h
    · exact absurd h (by simp)
    · have hrow : row = mkRow newId data := by
        have := congrArg Prod.fst h
        simpa using this.symm
      subst hrow
      rfl

/-- C5, witness: the amended passthrough equation at a concrete create. -/
theorem c5_payment_due_from_caller_witness :
    (mkRow 6 c5Data).paymentDue = num c5Data.paymentDue :=
  c5_payment_due_from_caller.1 [] 6 c5Data (mkRow 6 c5Data) [mkRow 6 c5Data] rfl

/-! ## C6: failed logins are indistinguishable -/

/-- C6: a login that fails because the username is unknown and a login
that fails because the credential does not verify return the same
response — status 401 with the same error body — in both the bcrypt
revision of part_001 and the argon2 revision of part_002, for every
store and every behaviour of the external verifier. -/
theorem c6_failed_logins_indistinguishable
    (compare verify : String → String → Bool)
    (users : List User) (ausers : List Argon.AUser)
    (u1 p1 u2 p2 a1 q1 a2 q2 : String) (usr : User) (ausr : Argon.AUser)
    (hu1 : u1 ≠ "") (hp1 : p1 ≠ "") (hu2 : u2 ≠ "") (hp2 : p2 ≠ "")
    (h1 : users.find? (fun x => x.username == u1) = none)
    (h2 : users.find? (fun x => x.username == u2) = some usr)
    (h3 : compare p2 usr.password = false)
    (h4 : ausers.find? (fun x => x.username == a1) = none)
    (h5 : ausers.find? (fun x => x.username == a2) = some ausr)
    (h6 : verify ausr.password q2 = false) :
    Jwt.login compare users u1 p1 = Jwt.login compare users u2 p2 ∧
    Jwt.login compare users u1 p1 = Jwt.LoginResp.fail 401 "Invalid credentials" ∧
    Argon.login verify ausers a1 q1 = Argon.login verify ausers a2 q2 ∧
    Argon.login verify ausers a1 q1 =
      Argon.LoginResp.fail 401 "Invalid credentials" := by
  have e1 : Jwt.login compare users u1 p1 =
      Jwt.LoginResp.fail 401 "Invalid credentials" := by
    simp [Jwt.login, hu1, hp1, h1]
  have e2 : Jwt.login compare users u2 p2 =
      Jwt.LoginResp.fail 401 "Invalid credentials" := by
    simp [Jwt.login, hu2, hp2, h2, h3]
  have e3 : Argon.login verify ausers a1 q1 =
      Argon.LoginResp.fail 401 "Invalid credentials" := by
    simp [Argon.login, h4]
  have e4 : Argon.login verify ausers a2 q2 =
      Argon.LoginResp.fail 401 "Invalid credentials" := by
    simp [Argon.login, h5, h6]
  exact ⟨e1.trans e2.symm, e1, e3.trans e4.symm, e3⟩

/-- C6, witness: the unknown user nouser and the known admin with a wrong
password receive identical 401 responses in both revisions. -/
theorem c6_failed_logins_indistinguishable_witness :
    Jwt.login (fun cand stored => stored == simpleHash cand)
        [{ id := 1, username := "admin", password := simpleHash "admin123", role := "admin" }]
        "nouser" "whatever" =
      Jwt.login (fun cand stored => stored == simpleHash cand)
        [{ id := 1, username := "admin", password := simpleHash "admin123", role := "admin" }]
        "admin" "wrong" ∧
    Jwt.login (fun cand stored => stored == simpleHash cand)
        [{ id := 1, username := "admin", password := simpleHash "admin123", role := "admin" }]
        "nouser" "whatever" = Jwt.LoginResp.fail 401 "Invalid credentials" ∧
    Argon.login (fun stored cand => stored == cand)
        [{ id := 1, username := "admin", password := "secret",
           fullName := some "Administrator", role := "admin", status := some "active" }]
        "nouser" "whatever" =
      Argon.login (fun stored cand => stored == cand)
        [{ id := 1, username := "admin", password := "secret",
           fullName := some "Administrator", role := "admin", status := some "active" }]
        "admin" "wrong" ∧
    Argon.login (fun stored cand => stored == cand)
        [{ id := 1, username := "admin", password := "secret",
           fullName := some "Administrator", role := "admin", status := some "active" }]
        "nouser" "whatever" = Argon.LoginResp.fail 401 "Invalid credentials" :=
  c6_failed_logins_indistinguishable
    (fun cand stored => stored == simpleHash cand) (fun stored cand => stored == cand)
    [{ id := 1, username := "admin", password := simpleHash "admin123", role := "admin" }]
    [{ id := 1, username := "admin", password := "secret",
       fullName := some "Administrator", role := "admin", status := some "active" }]
    "nouser" "whatever" "admin" "wrong" "nouser" "whatever" "admin" "wrong"
    { id := 1, username := "admin", password := simpleHash "admin123", role := "admin" }
    { id := 1, username := "admin", password := "secret",
      fullName := some "Administrator", role := "admin", status := some "active" }
    (by decide) (by decide) (by decide) (by decide)
    (by decide) (by decide) (by decide) (by decide) (by decide) (by decide)

/-! ## C7: duplicate token number on create -/

/-- C7, counterexample: in the part_001 revision a create whose token
number already exists is rejected with status 400, not the Conflict
status 409 the claim requires (and which the part_000 revision uses). -/
theorem c7_cx_duplicate_create_status_400 :
    Jwt.createAgreement [mkRow 7 c7Data] 8 c7Data =
      (Jwt.AgreementResp.err 400 "Token number already exists", [mkRow 7 c7Data]) ∧
    (400 : Nat) ≠ 409 := by
  exact ⟨rfl, by decide⟩

/-- C7 (amended): a create whose token number already exists inserts
nothing in either revision; the part_000 revision answers 409 Conflict
(the unique constraint catches the race), while the part_001 revision
answers 400 from its read-then-insert check. Sequentially, of two
creates with the same token number exactly the first succeeds. -/
theorem c7_duplicate_token_rejected :
    (∀ (store : List Agreement) (n : Nat) (d : AgreementInput),
       d.ownerName ≠ "" → d.location ≠ "" → d.tokenNumber ≠ "" →
       store.any (fun r => r.tokenNumber == d.tokenNumber) = true →
       RevA.createAgreement store n d =
         (RevA.AgreementResp.err 409 "Token number already exists", store)) ∧
    (∀ (store : List Agreement) (n : Nat) (d : AgreementInput),
       store.any (fun r => r.tokenNumber == d.tokenNumber) = true →
       Jwt.createAgreement store n d =
         (Jwt.AgreementResp.err 400 "Token number already exists", store)) ∧
    (∀ (store : List Agreement) (n1 n2 : Nat) (d1 d2 : AgreementInput)
       (row : Agreement) (store1 : List Agreement),
       d2.tokenNumber = d1.tokenNumber →
       d2.ownerName ≠ "" → d2.location ≠ "" → d2.tokenNumber ≠ "" →
       RevA.createAgreement store n1 d1 = (RevA.AgreementResp.ok row, store1) →
       RevA.createAgreement store1 n2 d2 =
         (RevA.AgreementResp.err 409 "Token number already exists", store1)) := by
  refine ⟨?_, ?_, ?_⟩
  · intro store n d ho hl ht hdup
    simp [RevA.createAgreement, ho, hl, ht, hdup]
  · intro store n d hdup
    simp [Jwt.createAgreement, hdup]
  · intro store n1 n2 d1 d2 row store1 htok ho hl ht h1
    unfold RevA.createAgreement at h1
    split at h1
    · exact absurd h1 (by simp)
    · split at h1
      · exact absurd h1 (by simp)
      · simp only [Prod.mk.injEq, RevA.AgreementResp.ok.injEq] at h1
        obtain ⟨hrow, hstore⟩ := h1
        have hdup : store1.any (fun r => r.tokenNumber == d2.tokenNumber) = true := by
          rw [← hstore]
          simp [htok]
        simp [RevA.createAgreement, ho, hl, ht, hdup]

/-- C7, witness: on a store already holding token T7, a create with the
same token receives 409 and inserts nothing. -/
theorem c7_duplicate_token_rejected_witness :
    RevA.createAgreement [{ rowX with id := 4, tokenNumber := "T7" }] 9 c7Data =
      (RevA.AgreementResp.err 409 "Token number already exists",
       [{ rowX with id := 4, tokenNumber := "T7" }]) :=
  c7_duplicate_token_rejected.1 [{ rowX with id := 4, tokenNumber := "T7" }] 9 c7Data
    (by decide) (by decide) (by decide) (by decide)

/-! ## C8: session rejection statuses -/

/-- C8, counterexample: a presented but invalid (or expired) token is
rejected by the middleware with status 403, not the Unauthorized 401 the
claim requires for every absence of a valid unexpired token. -/
theorem c8_cx_invalid_token_is_403 :
    Jwt.authenticateToken (fun _ => none) (some "Bearer sometoken") =
      Jwt.AuthResult.reject 403 "Invalid or expired token" ∧
    (403 : Nat) ≠ 401 := by
  exact ⟨rfl, by decide⟩

/-- C8 (amended): the middleware rejects a missing token with 401, an
invalid or expired token with 403, and a valid token short of the admin
role with 403 from checkAdmin; a valid token is attached and passed
through. -/
theorem c8_auth_middleware (jwtVerify : String → Option Jwt.Session)
    (authHeader : Option String) (user : Jwt.Session) :
    (Jwt.extractToken authHeader = none →
       Jwt.authenticateToken jwtVerify authHeader =
         Jwt.AuthResult.reject 401 "Access token required") ∧
    (∀ t, Jwt.extractToken authHeader = some t → jwtVerify t = none →
       Jwt.authenticateToken jwtVerify authHeader =
         Jwt.AuthResult.reject 403 "Invalid or expired token") ∧
    (∀ t u, Jwt.extractToken authHeader = some t → jwtVerify t = some u →
       Jwt.authenticateToken jwtVerify authHeader = Jwt.AuthResult.accept u) ∧
    (user.role ≠ "admin" →
       Jwt.checkAdmin user = some (403, "Forbidden: Admin access required")) ∧
    (user.role = "admin" → Jwt.checkAdmin user = none) := by
  refine ⟨?_, ?_, ?_, ?_, ?_⟩
  · intro h
    simp [Jwt.authenticateToken, h]
  · intro t ht hv
    simp [Jwt.authenticateToken, ht, hv]
  · intro t u ht hv
    simp [Jwt.authenticateToken, ht, hv]
  · intro h
    simp [Jwt.checkAdmin, h]
  · intro h
    simp [Jwt.checkAdmin, h]

/-- C8, witness: a request with no authorization header is rejected 401. -/
theorem c8_auth_middleware_witness :
    Jwt.authenticateToken (fun _ => none) none =
      Jwt.AuthResult.reject 401 "Access token required" :=
  (c8_auth_middleware (fun _ => none) none
    { id := 1, username := "u", role := "user" }).1 rfl

/-! ## C9: protected user records -/

/-- C9, counterexample: deleting the caller-identity record in the
part_001 revision answers 400, not Forbidden 403 (the record is left
intact); and the part_000 transactional restore removes the protected
admin user and re-inserts a redacted entry with the guessable placeholder
credential password instead of skipping it. -/
theorem c9_cx_self_delete_and_placeholder :
    (Jwt.deleteUser [{ id := 5, username := "boss", password := "h", role := "admin" }] 5 5 =
      (Jwt.DeleteResp.err 400 "Admin cannot delete their own account.",
       [{ id := 5, username := "boss", password := "h", role := "admin" }]) ∧
     (400 : Nat) ≠ 403) ∧
    RevB.restore
        { agreements := [], users := [⟨"admin", "h", "admin"⟩], activityLogs := [] }
        { agreements := none, users := some [⟨"carol", some "***HIDDEN***", "user"⟩] } =
      (true,
       { agreements := [], users := [⟨"carol", "password", "user"⟩], activityLogs := [] }) := by
  decide

/-- C9 (amended): self-delete in part_001 fails with status 400 and
leaves the store unchanged; deleting user id 1 in part_000 fails with
403 Forbidden and leaves the store unchanged; the part_000 restore
replaces the whole users table with the snapshot entries, substituting
the fixed placeholder credential password for any entry whose credential
is absent, empty or the redaction marker, rather than skipping it. -/
theorem c9_protected_user_deletion :
    (∀ (users : List User) (cid : Nat),
       Jwt.deleteUser users cid cid =
         (Jwt.DeleteResp.err 400 "Admin cannot delete their own account.", users)) ∧
    (∀ users : List User,
       RevA.deleteUser users 1 =
         (RevA.DeleteResp.err 403 "Cannot delete the primary admin account.", users)) ∧
    (∀ u : RevB.BUser,
       u.password = none ∨ u.password = some "" ∨ u.password = some "***HIDDEN***" →
         RevB.restoredPassword u = "password") ∧
    (∀ (db : RevB.DB) (snap : RevB.Snapshot) (l : List RevB.BUser),
       snap.users = some l → (RevB.restore db snap).1 = true →
         (RevB.restore db snap).2.users = l.map RevB.toStoredUser) := by
  refine ⟨?_, ?_, ?_, ?_⟩
  · intro users cid
    simp [Jwt.deleteUser]
  · intro users
    simp [RevA.deleteUser]
  · intro u h
    rcases h with h | h | h <;> simp [RevB.restoredPassword, h]
  · intro db snap l hl hc
    cases hb : RevB.restoreBody snap with
    | none => simp [RevB.restore, hb] at hc
    | some db2 =>
      have hres : RevB.restore db snap = (true, db2) := by
        simp [RevB.restore, hb]
      rw [hres]
      unfold RevB.restoreBody at hb
      cases ha : RevB.restoredAgreements snap with
      | none => rw [ha] at hb; simp at hb
      | some ags =>
        cases hus : RevB.restoredUsers snap with
        | none => rw [ha, hus] at hb; simp at hb
        | some us =>
          rw [ha, hus] at hb
          have hdb2 : db2 = { agreements := ags, users := us, activityLogs := [] } := by
            injection hb with h
            exact h.symm
          unfold RevB.restoredUsers at hus
          rw [hl] at hus
          have husl := insertUsersTx_append l [] us hus
          simp [hdb2, husl]

/-- C9, witness: the self-delete clause at a concrete store. -/
theorem c9_protected_user_deletion_witness :
    Jwt.deleteUser [{ id := 3, username := "root", password := "h", role := "admin" }] 3 3 =
      (Jwt.DeleteResp.err 400 "Admin cannot delete their own account.",
       [{ id := 3, username := "root", password := "h", role := "admin" }]) :=
  c9_protected_user_deletion.1
    [{ id := 3, username := "root", password := "h", role := "admin" }] 3

/-! ## C10: the debug endpoint exposes stored credentials -/

/-- C10: the unauthenticated debug users endpoint returns the stored
credential column of every user — its output projects back to the exact
password list, so any two stores that differ in their password lists
produce different endpoint outputs: stored credentials are observable at
the public interface. -/
theorem c10_debug_users_expose_credentials :
    (∀ users : List User,
       (RevA.debugUsers users).map (fun t => t.2.2.2) =
         users.map (fun u => u.password)) ∧
    (∀ us1 us2 : List User,
       us1.map (fun u => u.password) ≠ us2.map (fun u => u.password) →
         RevA.debugUsers us1 ≠ RevA.debugUsers us2) := by
  constructor
  · exact debugUsers_map_password
  · intro us1 us2 hne heq
    exact hne (by
      rw [← debugUsers_map_password, ← debugUsers_map_password, heq])

/-- C10, witness: two stores differing only in the stored credential of
the single user produce different debug outputs. -/
theorem c10_debug_users_expose_credentials_witness :
    RevA.debugUsers [{ id := 1, username := "admin", password := "hashA", role := "admin" }] ≠
      RevA.debugUsers [{ id := 1, username := "admin", password := "hashB", role := "admin" }] :=
  c10_debug_users_expose_credentials.2
    [{ id := 1, username := "admin", password := "hashA", role := "admin" }]
    [{ id := 1, username := "admin", password := "hashB", role := "admin" }]
    (by decide)

end AgreementManager
